import Mathlib

set_option maxHeartbeats 1000000

/-!
Shallow embedding of src/entry.go (package gorm): an OpenTelemetry
instrumentation plugin for gorm and a single-flight connection registry.

Machine effects of the Go code are made explicit as data: tracing spans and
debug logs become an ordered event list, gorm's untyped per-call instance
store becomes an association list, callback registration becomes a list of
registered hook names, and time.Now becomes an explicit natural-number
parameter.  External collaborators (the tracer, gorm's callback Register,
gorm.Open, singleflight.Do) are modelled from the spec's description of
their contracts where noted; everything else is translated directly from
the source.
-/

namespace GormOtel

/-- Tracing and logging effects emitted by the hooks, in emission order. -/
inductive TraceEvent
  | startSpan (tracerName spanName : String) (sid : Nat)
  | setAttr (sid : Nat) (key value : String)
  | endSpan (sid : Nat)
  | logDebug (dbName : String) (elapsed : Nat) (sql : String)
  | recordError (sid : Nat) (msg : String)
  | setStatus (sid : Nat) (code msg : String)
deriving DecidableEq

/-- State of the tracing backend: the next fresh span id and the event log. -/
structure TraceWorld where
  nextSpanId : Nat
  events : List TraceEvent
deriving DecidableEq

/-- Values storable in gorm's untyped per-call instance store
(db.InstanceSet / db.InstanceGet store interface values; the hooks store a
time.Time and a trace.Span and type-assert on retrieval). -/
inductive StoreVal
  | timeVal (t : Nat)
  | spanVal (sid : Nat)
  | otherVal (s : String)
deriving DecidableEq

/-- gorm.Statement: the operation's context (none models a nil
context.Context), the SQL text built so far, and the bound parameters. -/
structure Statement where
  Context : Option Nat
  SQL : String
  Vars : List String

/-- gorm.DB handle: a nil-able Statement pointer, the name reported by
db.Name(), the dialector's Explain (interpolates bound parameters into the
SQL text), the per-call instance store, the names of plugins installed via
Use, and the hook names registered in the callback system. -/
structure DBHandle where
  Statement : Option Statement
  Name : String
  Explain : String → List String → String
  store : List (String × StoreVal)
  plugins : List String
  callbacks : List String

/-- db.InstanceSet: store a value under a key in the per-call store. -/
def instanceSet (store : List (String × StoreVal)) (k : String) (v : StoreVal) :
    List (String × StoreVal) :=
  (k, v) :: store.filter (fun p => !(p.1 == k))

/-- db.InstanceGet: look a key up in the per-call store; none models the
found=false return. -/
def instanceGet (store : List (String × StoreVal)) (k : String) : Option StoreVal :=
  (store.find? (fun p => p.1 == k)).map Prod.snd

/-- An opentelemetry trace.TracerProvider reference; the process-wide
default provider is one distinguished value. -/
inductive TracerProvider
  | globalProvider
  | custom (id : Nat)
deriving DecidableEq

/-- otel.GetTracerProvider(): the process-wide default tracer provider. -/
def otelGetTracerProvider : TracerProvider := TracerProvider.globalProvider

/-- Type of the errorTagHook field: given a span id and an error message,
the events the hook emits. -/
def errorTagHookT : Type := Nat → String → List TraceEvent

/-- defaultErrorTagHook: records the error on the span and sets the span
status to error with the error's message. -/
def defaultErrorTagHook : errorTagHookT :=
  fun sid msg => [TraceEvent.recordError sid msg, TraceEvent.setStatus sid "error" msg]

/-- operationName: the display name used as the span name for a kind. -/
structure operationName where
  val : String
deriving DecidableEq

/-- operationName.String method from the source. -/
def operationName.String (n : operationName) : String := n.val

/-- operationStage: the string tag naming one before/after hook instance. -/
structure operationStage where
  val : String
deriving DecidableEq

/-- operationStage.Name method from the source. -/
def operationStage.Name (s : operationStage) : String := s.val

def _createOp : operationName := ⟨"create"⟩
def _updateOp : operationName := ⟨"update"⟩
def _queryOp : operationName := ⟨"query"⟩
def _deleteOp : operationName := ⟨"delete"⟩
def _rowOp : operationName := ⟨"row"⟩
def _rawOp : operationName := ⟨"raw"⟩

def _stageBeforeCreate : operationStage := ⟨"otel:before_create"⟩
def _stageAfterCreate : operationStage := ⟨"otel:after_create"⟩
def _stageBeforeUpdate : operationStage := ⟨"otel:before_update"⟩
def _stageAfterUpdate : operationStage := ⟨"otel:after_update"⟩
def _stageBeforeQuery : operationStage := ⟨"otel:before_query"⟩
def _stageAfterQuery : operationStage := ⟨"otel:after_query"⟩
def _stageBeforeDelete : operationStage := ⟨"otel:before_delete"⟩
def _stageAfterDelete : operationStage := ⟨"otel:after_delete"⟩
def _stageBeforeRow : operationStage := ⟨"otel:before_row"⟩
def _stageAfterRow : operationStage := ⟨"otel:after_row"⟩
def _stageBeforeRaw : operationStage := ⟨"otel:before_raw"⟩
def _stageAfterRaw : operationStage := ⟨"otel:after_raw"⟩

/-- The options struct of the plugin.  The Go tracer field is a nil-able
interface, modelled as an Option; the errorTagHook func field's zero value
is nil, modelled as none. -/
structure options where
  logResult : Bool
  tracer : Option TracerProvider
  logSqlParameters : Bool
  errorTagHook : Option errorTagHookT
  createOpName : operationName
  updateOpName : operationName
  queryOpName : operationName
  deleteOpName : operationName
  rowOpName : operationName
  rawOpName : operationName

/-- defaultOption from the source: logResult false, the global tracer
provider, logSqlParameters true, and the six default operation names.  The
errorTagHook field is not assigned in the source, so it keeps Go's zero
value (nil). -/
def defaultOption : options :=
  { logResult := false
    tracer := some otelGetTracerProvider
    logSqlParameters := true
    errorTagHook := none
    createOpName := _createOp
    updateOpName := _updateOp
    queryOpName := _queryOp
    deleteOpName := _deleteOp
    rowOpName := _rowOp
    rawOpName := _rawOp }

/-- ApplyOption: an option function; Go mutates the options struct in
place, modelled functionally. -/
def ApplyOption : Type := options → options

def WithLogResult (logResult : Bool) : ApplyOption :=
  fun o => { o with logResult := logResult }

/-- WithTracer: a nil provider is ignored, keeping the prior value. -/
def WithTracer (t : Option TracerProvider) : ApplyOption :=
  fun o =>
    match t with
    | none => o
    | some tp => { o with tracer := some tp }

def WithSqlParameters (logSqlParameters : Bool) : ApplyOption :=
  fun o => { o with logSqlParameters := logSqlParameters }

/-- The plugin: holds its options. -/
structure OpentracingPlugin where
  opt : options

/-- The plugin self-reports the fixed name "otel". -/
def OpentracingPlugin.Name (_op : OpentracingPlugin) : String := "otel"

/-- New: applies the option functions in order over the default options. -/
def New (opts : List ApplyOption) : OpentracingPlugin :=
  OpentracingPlugin.mk (opts.foldl (fun o apply => apply o) defaultOption)

/-- myError: the error accumulator, an ordered list of entry strings. -/
structure myError where
  errs : List String
deriving DecidableEq

/-- myError.add: appends "stage=" + stage.Name() + ":" + err.Error() when
the error is present; a no-op when it is nil. -/
def myError.add (e : myError) (stage : operationStage) (err : Option String) : myError :=
  match err with
  | none => e
  | some msg => ⟨e.errs ++ ["stage=" ++ stage.Name ++ ":" ++ msg]⟩

/-- myError.toError: nil when no entries were accumulated, otherwise the
accumulator itself as a single error. -/
def myError.toError (e : myError) : Option myError :=
  if e.errs = [] then none else some e

/-- myError.Error: the combined message, all entries joined by ";". -/
def myError.Error (e : myError) : String := String.intercalate ";" e.errs

/-- Modelled from the spec: the fixed database-system attribute and the
attribute keys supplied by the external util / semconv packages. -/
def DBSystemKey : String := "db.system"

def DBSystemVal : String := "mysql"

def DBNameKey : String := "db.name"

def DBStatementKey : String := "db.statement"

/-- The per-call store after the before hook: the current time stored
under "start_time" and then the span under "span". -/
def storedState (store : List (String × StoreVal)) (now sid : Nat) :
    List (String × StoreVal) :=
  instanceSet (instanceSet store "start_time" (StoreVal.timeVal now)) "span"
    (StoreVal.spanVal sid)

/-- injectBefore: no-op if the db, its Statement, or the Statement's
Context is nil; otherwise obtains the tracer from the global provider
under the fixed name "MySQL-Operation", starts a span named by the given
operation name, sets the database-system and database-name attributes,
and stores the current time under "start_time" and the span under "span"
in the per-call instance store.  The current time and tracing state are
explicit parameters; the updated db and world are returned. -/
def OpentracingPlugin.injectBefore (_op : OpentracingPlugin) (db : Option DBHandle)
    (name : operationName) (now : Nat) (w : TraceWorld) : Option DBHandle × TraceWorld :=
  match db with
  | none => (db, w)
  | some d =>
    match d.Statement with
    | none => (db, w)
    | some stmt =>
      match stmt.Context with
      | none => (db, w)
      | some _ =>
        let sid := w.nextSpanId
        let w' : TraceWorld :=
          { nextSpanId := sid + 1
            events := w.events ++
              [TraceEvent.startSpan "MySQL-Operation" name.String sid,
               TraceEvent.setAttr sid DBSystemKey DBSystemVal,
               TraceEvent.setAttr sid DBNameKey d.Name] }
        let d' : DBHandle := { d with store := storedState d.store now sid }
        (some d', w')

/-- extractAfter: no-op if the db, its Statement, or the Statement's
Context is nil; otherwise reads "start_time" from the per-call store
(falling back to the zero time when absent or of the wrong type), derives
the interpolated SQL via the dialector's Explain over all bound
parameters, and if a span was stored attaches the SQL as the
db.statement attribute and ends the span; finally it unconditionally
emits a debug log with the db name, the elapsed time since start_time,
and the SQL. -/
def OpentracingPlugin.extractAfter (_op : OpentracingPlugin) (db : Option DBHandle)
    (now : Nat) (w : TraceWorld) : TraceWorld :=
  match db with
  | none => w
  | some d =>
    match d.Statement with
    | none => w
    | some stmt =>
      match stmt.Context with
      | none => w
      | some _ =>
        let startTime : Nat :=
          match instanceGet d.store "start_time" with
          | some (StoreVal.timeVal t) => t
          | _ => 0
        let sql := d.Explain stmt.SQL stmt.Vars
        let w' : TraceWorld :=
          match instanceGet d.store "span" with
          | some (StoreVal.spanVal sid) =>
            { w with events := w.events ++
                [TraceEvent.setAttr sid DBStatementKey sql, TraceEvent.endSpan sid] }
          | _ => w
        { w' with events := w'.events ++
            [TraceEvent.logDebug d.Name (now - startTime) sql] }

def OpentracingPlugin.beforeCreate (op : OpentracingPlugin) (db : Option DBHandle)
    (now : Nat) (w : TraceWorld) : Option DBHandle × TraceWorld :=
  op.injectBefore db op.opt.createOpName now w

def OpentracingPlugin.beforeUpdate (op : OpentracingPlugin) (db : Option DBHandle)
    (now : Nat) (w : TraceWorld) : Option DBHandle × TraceWorld :=
  op.injectBefore db op.opt.updateOpName now w

def OpentracingPlugin.beforeQuery (op : OpentracingPlugin) (db : Option DBHandle)
    (now : Nat) (w : TraceWorld) : Option DBHandle × TraceWorld :=
  op.injectBefore db op.opt.queryOpName now w

def OpentracingPlugin.beforeDelete (op : OpentracingPlugin) (db : Option DBHandle)
    (now : Nat) (w : TraceWorld) : Option DBHandle × TraceWorld :=
  op.injectBefore db op.opt.deleteOpName now w

def OpentracingPlugin.beforeRow (op : OpentracingPlugin) (db : Option DBHandle)
    (now : Nat) (w : TraceWorld) : Option DBHandle × TraceWorld :=
  op.injectBefore db op.opt.rowOpName now w

def OpentracingPlugin.beforeRaw (op : OpentracingPlugin) (db : Option DBHandle)
    (now : Nat) (w : TraceWorld) : Option DBHandle × TraceWorld :=
  op.injectBefore db op.opt.rawOpName now w

def OpentracingPlugin.after (op : OpentracingPlugin) (db : Option DBHandle)
    (now : Nat) (w : TraceWorld) : TraceWorld :=
  op.extractAfter db now w

/-- The closed set of operation kinds. -/
inductive OpKind
  | create | update | query | delete | row | raw
deriving DecidableEq

/-- The configured operation name for a kind. -/
def options.opName (o : options) : OpKind → operationName
  | OpKind.create => o.createOpName
  | OpKind.update => o.updateOpName
  | OpKind.query => o.queryOpName
  | OpKind.delete => o.deleteOpName
  | OpKind.row => o.rowOpName
  | OpKind.raw => o.rawOpName

/-- The six before hooks, dispatched by kind; each is the source's
per-kind wrapper around injectBefore. -/
def OpentracingPlugin.beforeHook (op : OpentracingPlugin) (k : OpKind) (db : Option DBHandle)
    (now : Nat) (w : TraceWorld) : Option DBHandle × TraceWorld :=
  match k with
  | OpKind.create => op.beforeCreate db now w
  | OpKind.update => op.beforeUpdate db now w
  | OpKind.query => op.beforeQuery db now w
  | OpKind.delete => op.beforeDelete db now w
  | OpKind.row => op.beforeRow db now w
  | OpKind.raw => op.beforeRaw db now w

/-- Modelled from the spec: gorm's callback Register (external
dependency), which fails on a duplicate hook name and otherwise records
the hook as active. -/
def registerCallback (db : DBHandle) (hookName : String) : DBHandle × Option String :=
  if hookName ∈ db.callbacks then
    (db, some ("duplicated callback " ++ hookName))
  else
    ({ db with callbacks := db.callbacks ++ [hookName] }, none)

/-- The twelve registrations attempted by Initialize, in the source's
order: create, update, query, delete, row, raw; before then after. -/
def stages : List operationStage :=
  [_stageBeforeCreate, _stageAfterCreate, _stageBeforeUpdate, _stageAfterUpdate,
   _stageBeforeQuery, _stageAfterQuery, _stageBeforeDelete, _stageAfterDelete,
   _stageBeforeRow, _stageAfterRow, _stageBeforeRaw, _stageAfterRaw]

/-- The names of the stages whose registration succeeds against a
pre-existing set of registered hook names, in attempt order. -/
def succeededNames (ss : List operationStage) (base : List String) : List String :=
  (ss.filter (fun s => !decide (s.Name ∈ base))).map operationStage.Name

/-- The accumulator entries produced by the stages whose registration
collides with a pre-existing hook name, in attempt order. -/
def failedEntries (ss : List operationStage) (base : List String) : List String :=
  (ss.filter (fun s => decide (s.Name ∈ base))).map
    (fun s => "stage=" ++ s.Name ++ ":" ++ ("duplicated callback " ++ s.Name))

/-- One register-then-accumulate step per stage, iterated in order; this
is the shape of each of the source's twelve statement pairs
(err = Register(stage.Name(), hook); e.add(stage, err)). -/
def regFold (db : DBHandle) (e : myError) : List operationStage → DBHandle × myError
  | [] => (db, e)
  | s :: rest =>
    let r := registerCallback db s.Name
    regFold r.1 (e.add s r.2) rest

/-- Initialize: attempts all twelve hook registrations in the source's
order, accumulating each failure in a fresh myError, and returns the
accumulated combined error (nil when every registration succeeded). -/
def OpentracingPlugin.Initialize (_op : OpentracingPlugin) (db : DBHandle) :
    DBHandle × Option myError :=
  let r := regFold db (myError.mk []) stages
  (r.1, r.2.toError)

/-- Modelled from the spec: gorm's DB.Use (external dependency) installs a
plugin by running its Initialize against the handle and recording the
plugin's name; the source discards Use's returned error. -/
def DBHandle.Use (db : DBHandle) (p : OpentracingPlugin) : DBHandle :=
  let r := p.Initialize db
  { r.1 with plugins := r.1.plugins ++ [p.Name] }

/-- The registry mapping lookup (dbs[name] under the read lock). -/
def lookupDB (dbs : List (String × DBHandle)) (name : String) : Option DBHandle :=
  (dbs.find? (fun p => p.1 == name)).map Prod.snd

/-- The observable result of one Get call: a returned (handle, error)
pair, or a run-time panic. -/
inductive GetOutcome
  | ok (db : DBHandle) (err : Option String)
  | panicked

/-- Get, sequential case.  openEnv models gorm.Open(mysql.Open(dsn))
(external dependency): the environment's response to opening the given
dsn.  The returned Nat counts open invocations.  On a cache miss the
single-flight closure opens the connection; on failure it returns
(nil, err), the code then discards sfg.Do's error and evaluates the
single-value type assertion v.(*gorm.DB) on the nil result, which
panics - modelled as GetOutcome.panicked.  On success the plugin is
installed via Use before the handle is published into the mapping. -/
def Get (dbs : List (String × DBHandle)) (name dsn : String)
    (openEnv : String → Except String DBHandle) :
    GetOutcome × List (String × DBHandle) × Nat :=
  match lookupDB dbs name with
  | some v => (GetOutcome.ok v none, dbs, 0)
  | none =>
    match openEnv dsn with
    | Except.error _ => (GetOutcome.panicked, dbs, 1)
    | Except.ok d =>
      let d' := d.Use (New [WithLogResult false, WithSqlParameters true])
      (GetOutcome.ok d' none, (name, d') :: dbs, 1)

/-- Modelled from the spec: n concurrent Get calls for one name whose
cache misses all overlap one in-flight singleflight.Do attempt
(singleflight is an external dependency: exactly one leader runs the
closure once and every caller receives the leader's result).  Each
caller's own err variable is only assigned inside the closure, so
non-leader callers always see err = nil, and every caller evaluates
v.(*gorm.DB) on the shared result: on open failure the shared result is
nil and every caller panics.  The Nat counts open invocations. -/
def concurrentGet (dbs : List (String × DBHandle)) (name dsn : String) (n : Nat)
    (openEnv : String → Except String DBHandle) :
    List GetOutcome × List (String × DBHandle) × Nat :=
  match lookupDB dbs name with
  | some v => (List.replicate n (GetOutcome.ok v none), dbs, 0)
  | none =>
    match openEnv dsn with
    | Except.error _ => (List.replicate n GetOutcome.panicked, dbs, 1)
    | Except.ok d =>
      let d' := d.Use (New [WithLogResult false, WithSqlParameters true])
      (List.replicate n (GetOutcome.ok d' none), (name, d') :: dbs, 1)

/-- Whether an operation context is present: the db, its Statement, and
the Statement's Context all exist. -/
def opCtxPresent : Option DBHandle → Bool
  | none => false
  | some d =>
    match d.Statement with
    | none => false
    | some stmt => stmt.Context.isSome

/-- A concrete cached handle used to exercise the cache-hit fast path. -/
def cachedDB : DBHandle :=
  { Statement := none
    Name := "users-db"
    Explain := fun s _ => s
    store := []
    plugins := ["otel"]
    callbacks := [] }

/-- A concrete statement with a live context and no bound parameters. -/
def unpairedStmt : Statement := { Context := some 2, SQL := "SELECT 1", Vars := [] }

/-- A concrete handle whose per-call store is empty: its after hook runs
without a matching before hook. -/
def unpairedDB : DBHandle :=
  { Statement := some unpairedStmt
    Name := "mysql"
    Explain := fun s _ => s
    store := []
    plugins := []
    callbacks := [] }

/-- A concrete statement with a live context and one bound parameter. -/
def wStmt : Statement :=
  { Context := some 1, SQL := "SELECT * FROM users WHERE id = ?", Vars := ["42"] }

/-- A concrete handle with a live statement, used to exercise the hooks. -/
def wDB : DBHandle :=
  { Statement := some wStmt
    Name := "testdb"
    Explain := fun s vs => String.intercalate "|" (s :: vs)
    store := []
    plugins := []
    callbacks := [] }

/-- Options differing from the defaults exactly in logResult,
logSqlParameters and the tracer provider. -/
def altLoggingOptions : options :=
  { defaultOption with
      logResult := true
      logSqlParameters := false
      tracer := some (TracerProvider.custom 7) }

/-- A handle whose callback system already holds three of the twelve
stage names, forcing those three registrations to collide. -/
def collidingDB : DBHandle :=
  { Statement := none
    Name := "colliding"
    Explain := fun s _ => s
    store := []
    plugins := []
    callbacks := ["otel:before_update", "otel:after_query", "otel:before_raw"] }

/-- Claim C1: launching ten concurrent Get calls for the unseen name
"users" while the underlying open fails: a single open invocation occurs
and nothing is cached, but every caller panics on the nil interface type
assertion v.(*gorm.DB) instead of returning the identical error, so the
error half of the claim fails on the code. -/
theorem concurrentGet_open_error_all_panic :
    concurrentGet [] "users" "dsn0" 10 (fun _ => Except.error "dial tcp: connection refused")
      = (List.replicate 10 GetOutcome.panicked, [], 1) := rfl

/-- Claim C2: a Get call for the uncached name "orders" whose underlying
open fails performs one open and caches nothing, but panics on the nil
interface type assertion v.(*gorm.DB) instead of returning the
initialization error. -/
theorem get_open_error_panics :
    Get [] "orders" "dsn0" (fun _ => Except.error "connect: connection refused")
      = (GetOutcome.panicked, [], 1) := rfl

/-- Claim C5: when a name is already present in the registry mapping, Get
returns the cached handle with a nil error, leaves the registry unchanged,
and performs zero open invocations, irrespective of what opening would
produce (the single-flight coordinator is not consulted on this path). -/
theorem get_cached_hit (dbs : List (String × DBHandle)) (name dsn : String)
    (openEnv : String → Except String DBHandle) (v : DBHandle)
    (h : lookupDB dbs name = some v) :
    Get dbs name dsn openEnv = (GetOutcome.ok v none, dbs, 0) := by
  simp [Get, h]

/-- Witness for get_cached_hit: a registry caching "users"; Get returns the
cached handle and invokes no open even though opening would fail. -/
theorem get_cached_hit_witness :
    Get [("users", cachedDB)] "users" "dsn0" (fun _ => Except.error "open must not run")
      = (GetOutcome.ok cachedDB none, [("users", cachedDB)], 0) :=
  get_cached_hit [("users", cachedDB)] "users" "dsn0" _ cachedDB rfl

/-- Claim C6: when the operation context is absent (nil db, nil statement,
or nil execution context) both hooks are silent no-ops: injectBefore
returns the db and tracing world unchanged (no span started, no per-call
state stored) and extractAfter returns the tracing world unchanged (no
span ended, no log emitted). -/
theorem hooks_noop_without_ctx (op : OpentracingPlugin) (db : Option DBHandle)
    (nm : operationName) (now : Nat) (w : TraceWorld)
    (h : opCtxPresent db = false) :
    op.injectBefore db nm now w = (db, w) ∧ op.extractAfter db now w = w := by
  cases db with
  | none =>
    exact ⟨rfl, rfl⟩
  | some d =>
    cases hs : d.Statement with
    | none =>
      simp [OpentracingPlugin.injectBefore, OpentracingPlugin.extractAfter, hs]
    | some stmt =>
      cases hc : stmt.Context with
      | none =>
        simp [OpentracingPlugin.injectBefore, OpentracingPlugin.extractAfter, hs, hc]
      | some c =>
        exfalso
        simp [opCtxPresent, hs, hc] at h

/-- Witness for hooks_noop_without_ctx: at a nil db both hooks change
nothing. -/
theorem hooks_noop_without_ctx_witness :
    (New []).injectBefore none (operationName.mk "query") 3 (TraceWorld.mk 0 [])
        = (none, TraceWorld.mk 0 []) ∧
    (New []).extractAfter none 3 (TraceWorld.mk 0 []) = TraceWorld.mk 0 [] :=
  hooks_noop_without_ctx (New []) none (operationName.mk "query") 3 (TraceWorld.mk 0 []) rfl

/-- Claim C8: New folds the option functions in order over defaultOption;
the defaults are logResult = false, logSqlParameters = true and the
process-wide default tracer provider; WithTracer with a nil provider is a
no-op on any prior options, so after New (WithTracer nil) the effective
tracer is still the default tracer provider and in particular not nil. -/
theorem new_defaults_spec :
    (∀ (opts : List ApplyOption) (f : ApplyOption),
        New (opts ++ [f]) = OpentracingPlugin.mk (f (New opts).opt)) ∧
    defaultOption.logResult = false ∧
    defaultOption.logSqlParameters = true ∧
    defaultOption.tracer = some otelGetTracerProvider ∧
    (∀ o : options, WithTracer none o = o) ∧
    (New [WithTracer none]).opt.tracer = some otelGetTracerProvider ∧
    (New [WithTracer none]).opt.tracer.isSome = true := by
  refine ⟨?_, rfl, rfl, rfl, fun o => rfl, rfl, rfl⟩
  intro opts f
  simp [New, List.foldl_append]

/-- Claim C4 counterexample: add with a present error does not append
stage + ":" + message; at stage "otel:before_create" with message "boom"
the appended entry is "stage=otel:before_create:boom", carrying an extra
"stage=" prefix the claim omits. -/
theorem myError_add_cex :
    (myError.add (myError.mk []) _stageBeforeCreate (some "boom")).errs
        = ["stage=otel:before_create:boom"] ∧
    (myError.add (myError.mk []) _stageBeforeCreate (some "boom")).errs
        ≠ ["otel:before_create:boom"] :=
  ⟨rfl, by decide⟩

/-- Claim C4 (amended): add with a present error appends exactly the
string "stage=" + stage + ":" + message; add with an absent error is a
no-op; toError yields no error exactly when the sequence is empty and
otherwise a single error whose message joins all entries with ";" in
insertion order. -/
theorem myError_accumulator_spec (e : myError) (st : operationStage) (m : String) :
    myError.add e st none = e ∧
    (myError.add e st (some m)).errs = e.errs ++ ["stage=" ++ st.Name ++ ":" ++ m] ∧
    (e.errs = [] → e.toError = none) ∧
    (e.errs ≠ [] → ∃ er, e.toError = some er ∧ er.Error = String.intercalate ";" e.errs) := by
  refine ⟨rfl, rfl, ?_, ?_⟩
  · intro h
    simp [myError.toError, h]
  · intro h
    exact ⟨e, by simp [myError.toError, h], rfl⟩

/-- Witness for myError_accumulator_spec: an empty accumulator yields no
error and a singleton accumulator yields one. -/
theorem myError_accumulator_spec_witness :
    (myError.mk []).toError = none ∧ (myError.mk ["a"]).toError ≠ none := by
  refine ⟨(myError_accumulator_spec (myError.mk []) _stageAfterRaw "x").2.2.1 rfl, ?_⟩
  obtain ⟨er, her, -⟩ :=
    (myError_accumulator_spec (myError.mk ["a"]) _stageAfterRaw "x").2.2.2 (by decide)
  simp [her]

/-- Claim C7 counterexample: with a live context but no prior before hook
(empty per-call store), at current time 5 the after hook emits a log whose
elapsed duration is 5 - the time elapsed since the zero timestamp - not
the zero duration the claim states. -/
theorem after_unpaired_nonzero_cex :
    ((New []).extractAfter (some unpairedDB) 5 (TraceWorld.mk 0 [])).events
        = [TraceEvent.logDebug "mysql" 5 "SELECT 1"] ∧
    ((New []).extractAfter (some unpairedDB) 5 (TraceWorld.mk 0 [])).events
        ≠ [TraceEvent.logDebug "mysql" 0 "SELECT 1"] :=
  ⟨rfl, by decide⟩

/-- Claim C7 (amended): with a live context but neither "start_time" nor
"span" stored, the after hook does not fail, performs no span attribute
mutation and ends no span, and emits exactly one debug log whose elapsed
duration is the current time minus the zero timestamp and whose SQL is
the dialector's interpolation of all bound parameters. -/
theorem after_unpaired_spec (op : OpentracingPlugin) (d : DBHandle) (stmt : Statement)
    (c : Nat) (now : Nat) (w : TraceWorld)
    (hstmt : d.Statement = some stmt) (hctx : stmt.Context = some c)
    (hst : instanceGet d.store "start_time" = none)
    (hsp : instanceGet d.store "span" = none) :
    op.extractAfter (some d) now w =
      TraceWorld.mk w.nextSpanId
        (w.events ++ [TraceEvent.logDebug d.Name now (d.Explain stmt.SQL stmt.Vars)]) := by
  simp [OpentracingPlugin.extractAfter, hstmt, hctx, hst, hsp]

/-- Witness for after_unpaired_spec at time 9 on a concrete handle. -/
theorem after_unpaired_spec_witness :
    (New []).extractAfter (some unpairedDB) 9 (TraceWorld.mk 3 [])
      = TraceWorld.mk 3 [TraceEvent.logDebug "mysql" 9 "SELECT 1"] := by
  have h := after_unpaired_spec (New []) unpairedDB unpairedStmt 2 9 (TraceWorld.mk 3 [])
    rfl rfl rfl rfl
  exact h

/-- Unfolding of injectBefore when the operation context is present. -/
lemma injectBefore_run (op : OpentracingPlugin) (d : DBHandle) (stmt : Statement)
    (c : Nat) (nm : operationName) (now : Nat) (w : TraceWorld)
    (hstmt : d.Statement = some stmt) (hctx : stmt.Context = some c) :
    op.injectBefore (some d) nm now w =
      (some { d with store := storedState d.store now w.nextSpanId },
       TraceWorld.mk (w.nextSpanId + 1)
         (w.events ++
           [TraceEvent.startSpan "MySQL-Operation" nm.String w.nextSpanId,
            TraceEvent.setAttr w.nextSpanId DBSystemKey DBSystemVal,
            TraceEvent.setAttr w.nextSpanId DBNameKey d.Name])) := by
  simp [OpentracingPlugin.injectBefore, hstmt, hctx]

/-- Claim C9: with a present operation context, the before hook for any
operation kind starts one new span named by the configured operation name
for that kind, obtained from the tracer named "MySQL-Operation", sets the
fixed database-system attribute and the database-name attribute derived
from the handle's Name, and stores the current timestamp under
"start_time" and the span under "span" in the per-call state. -/
theorem beforeHook_spec (op : OpentracingPlugin) (k : OpKind) (d : DBHandle)
    (stmt : Statement) (c : Nat) (now : Nat) (w : TraceWorld)
    (hstmt : d.Statement = some stmt) (hctx : stmt.Context = some c) :
    op.beforeHook k (some d) now w =
      (some { d with store := storedState d.store now w.nextSpanId },
       TraceWorld.mk (w.nextSpanId + 1)
         (w.events ++
           [TraceEvent.startSpan "MySQL-Operation" (op.opt.opName k).String w.nextSpanId,
            TraceEvent.setAttr w.nextSpanId DBSystemKey DBSystemVal,
            TraceEvent.setAttr w.nextSpanId DBNameKey d.Name])) := by
  cases k <;> exact injectBefore_run op d stmt c _ now w hstmt hctx

/-- Witness for beforeHook_spec: the query hook on a concrete handle at
time 7 starts span 0 named "query" and stores the time and span. -/
theorem beforeHook_spec_witness :
    (New []).beforeHook OpKind.query (some wDB) 7 (TraceWorld.mk 0 []) =
      (some { wDB with store := storedState wDB.store 7 0 },
       TraceWorld.mk 1
         [TraceEvent.startSpan "MySQL-Operation" "query" 0,
          TraceEvent.setAttr 0 DBSystemKey DBSystemVal,
          TraceEvent.setAttr 0 DBNameKey "testdb"]) := by
  have h := beforeHook_spec (New []) OpKind.query wDB wStmt 1 7 (TraceWorld.mk 0 []) rfl rfl
  exact h

/-- Behaviour of the registration fold: starting from callback names
base ++ fresh where no attempted stage name lies in fresh and the stage
names are pairwise distinct, the stages colliding with base fail and are
accumulated in order, and the others are appended to the callback system
in order. -/
lemma regFold_spec (ss : List operationStage) (db : DBHandle) (base fresh : List String)
    (e : myError) (hcb : db.callbacks = base ++ fresh)
    (hfresh : ∀ s ∈ ss, s.Name ∉ fresh)
    (hnd : ss.Pairwise (fun a b => a.Name ≠ b.Name)) :
    regFold db e ss =
      ({ db with callbacks := base ++ (fresh ++ succeededNames ss base) },
       myError.mk (e.errs ++ failedEntries ss base)) := by
  induction ss generalizing db fresh e with
  | nil =>
    simp only [regFold, succeededNames, failedEntries, List.filter_nil, List.map_nil,
      List.append_nil]
    rw [← hcb]
  | cons s rest ih =>
    rw [List.pairwise_cons] at hnd
    obtain ⟨hs, hrest⟩ := hnd
    have hfs : s.Name ∉ fresh := hfresh s (List.mem_cons_self s rest)
    have hfr : ∀ t ∈ rest, t.Name ∉ fresh := fun t ht => hfresh t (List.mem_cons_of_mem s ht)
    by_cases hb : s.Name ∈ base
    · have hmem : s.Name ∈ db.callbacks := by
        rw [hcb]
        exact List.mem_append_left _ hb
      have hstep : regFold db e (s :: rest)
          = regFold db (myError.add e s (some ("duplicated callback " ++ s.Name))) rest := by
        simp [regFold, registerCallback, hmem]
      rw [hstep, ih db fresh _ hcb hfr hrest]
      simp [succeededNames, failedEntries, hb, myError.add, List.filter_cons,
        List.append_assoc]
    · have hmem : s.Name ∉ db.callbacks := by
        rw [hcb]
        simp [List.mem_append, hb, hfs]
      have hstep : regFold db e (s :: rest)
          = regFold { db with callbacks := db.callbacks ++ [s.Name] } e rest := by
        simp [regFold, registerCallback, hmem, myError.add]
      have hcb' : ({ db with callbacks := db.callbacks ++ [s.Name] } : DBHandle).callbacks
          = base ++ (fresh ++ [s.Name]) := by
        simp [hcb, List.append_assoc]
      have hfr' : ∀ t ∈ rest, t.Name ∉ fresh ++ [s.Name] := by
        intro t ht
        simp only [List.mem_append, List.mem_singleton, not_or]
        exact ⟨hfr t ht, fun hEq => hs t ht hEq.symm⟩
      rw [hstep, ih _ (fresh ++ [s.Name]) e hcb' hfr' hrest]
      simp [succeededNames, failedEntries, hb, List.filter_cons, List.append_assoc]

/-- Claim C3: Initialize attempts all twelve hook registrations even when
some fail: every stage whose name is not already registered becomes
active, in order; it returns nil when all twelve succeed; otherwise it
returns a single combined error accumulating exactly the failing stages,
in order, whose message joins their entries with ";". -/
theorem initialize_registers_all_and_aggregates (op : OpentracingPlugin) (db : DBHandle) :
    ((op.Initialize db).1.callbacks = db.callbacks ++ succeededNames stages db.callbacks) ∧
    (failedEntries stages db.callbacks = [] → (op.Initialize db).2 = none) ∧
    (failedEntries stages db.callbacks ≠ [] →
      (op.Initialize db).2 = some (myError.mk (failedEntries stages db.callbacks)) ∧
      (myError.mk (failedEntries stages db.callbacks)).Error
        = String.intercalate ";" (failedEntries stages db.callbacks)) := by
  have hnd : stages.Pairwise (fun a b => a.Name ≠ b.Name) := by decide
  have h := regFold_spec stages db db.callbacks [] (myError.mk []) (by simp)
    (fun s _hs => List.not_mem_nil s.Name) hnd
  refine ⟨?_, ?_, ?_⟩
  · simp [OpentracingPlugin.Initialize, h]
  · intro hf
    simp [OpentracingPlugin.Initialize, h, myError.toError, hf]
  · intro hf
    refine ⟨?_, rfl⟩
    simp [OpentracingPlugin.Initialize, h, myError.toError, hf]

/-- Witness for initialize_registers_all_and_aggregates: with three stage
names pre-registered, Initialize leaves the nine fresh hooks active and
returns an accumulated error holding exactly the three colliding entries,
in attempt order. -/
theorem initialize_registers_all_and_aggregates_witness :
    ((New []).Initialize collidingDB).2
        = some (myError.mk (failedEntries stages collidingDB.callbacks)) ∧
    ((New []).Initialize collidingDB).1.callbacks
        = collidingDB.callbacks ++ succeededNames stages collidingDB.callbacks ∧
    failedEntries stages collidingDB.callbacks
        = ["stage=otel:before_update:duplicated callback otel:before_update",
           "stage=otel:after_query:duplicated callback otel:after_query",
           "stage=otel:before_raw:duplicated callback otel:before_raw"] := by
  have h := initialize_registers_all_and_aggregates (New []) collidingDB
  exact ⟨(h.2.2 (by decide)).1, h.1, rfl⟩

/-- The before hook for a kind is injectBefore at the configured name. -/
lemma beforeHook_eq_inject (op : OpentracingPlugin) (k : OpKind) (db : Option DBHandle)
    (now : Nat) (w : TraceWorld) :
    op.beforeHook k db now w = op.injectBefore db (op.opt.opName k) now w := by
  cases k <;> rfl

/-- Claim C10: the hooks read none of logResult, logSqlParameters or the
configured tracer: two plugins whose options agree on everything else
have identical before and after hooks on every input; every span the
before hook starts comes from the tracer obtained under the fixed global
name "MySQL-Operation"; and every log the after hook emits carries the
SQL interpolated from all bound parameters. -/
theorem hooks_ignore_logging_options (o1 o2 : options)
    (hc : o1.createOpName = o2.createOpName) (hu : o1.updateOpName = o2.updateOpName)
    (hq : o1.queryOpName = o2.queryOpName) (hd : o1.deleteOpName = o2.deleteOpName)
    (hr : o1.rowOpName = o2.rowOpName) (hw : o1.rawOpName = o2.rawOpName)
    (_he : o1.errorTagHook = o2.errorTagHook) :
    (∀ (k : OpKind) (db : Option DBHandle) (now : Nat) (w : TraceWorld),
        (OpentracingPlugin.mk o1).beforeHook k db now w
          = (OpentracingPlugin.mk o2).beforeHook k db now w) ∧
    (∀ (db : Option DBHandle) (now : Nat) (w : TraceWorld),
        (OpentracingPlugin.mk o1).after db now w
          = (OpentracingPlugin.mk o2).after db now w) ∧
    (∀ (op : OpentracingPlugin) (db : Option DBHandle) (nm : operationName) (now : Nat)
        (w : TraceWorld) (tn sn : String) (sid : Nat),
        TraceEvent.startSpan tn sn sid ∈ (op.injectBefore db nm now w).2.events →
        TraceEvent.startSpan tn sn sid ∈ w.events ∨ tn = "MySQL-Operation") ∧
    (∀ (op : OpentracingPlugin) (d : DBHandle) (stmt : Statement) (now : Nat)
        (w : TraceWorld) (dbN : String) (el : Nat) (sq : String),
        d.Statement = some stmt →
        TraceEvent.logDebug dbN el sq ∈ (op.extractAfter (some d) now w).events →
        TraceEvent.logDebug dbN el sq ∈ w.events ∨ sq = d.Explain stmt.SQL stmt.Vars) := by
  refine ⟨?_, ?_, ?_, ?_⟩
  · intro k db now w
    rw [beforeHook_eq_inject, beforeHook_eq_inject]
    have hname : (OpentracingPlugin.mk o1).opt.opName k
        = (OpentracingPlugin.mk o2).opt.opName k := by
      cases k
      exacts [hc, hu, hq, hd, hr, hw]
    rw [hname]
    rfl
  · intro db now w
    rfl
  · intro op db nm now w tn sn sid h
    cases db with
    | none => exact Or.inl h
    | some d =>
      cases hs : d.Statement with
      | none =>
        simp only [OpentracingPlugin.injectBefore, hs] at h
        exact Or.inl h
      | some stmt =>
        cases hc2 : stmt.Context with
        | none =>
          simp only [OpentracingPlugin.injectBefore, hs, hc2] at h
          exact Or.inl h
        | some c =>
          rw [injectBefore_run op d stmt c nm now w hs hc2] at h
          simp at h
          rcases h with h | ⟨h1, -, -⟩
          · exact Or.inl h
          · exact Or.inr h1
  · intro op d stmt now w dbN el sq hstmt h
    cases hc3 : stmt.Context with
    | none =>
      simp only [OpentracingPlugin.extractAfter, hstmt, hc3] at h
      exact Or.inl h
    | some c =>
      simp only [OpentracingPlugin.extractAfter, hstmt, hc3] at h
      cases hsp : instanceGet d.store "span" with
      | none =>
        rw [hsp] at h
        simp at h
        rcases h with h | h
        · exact Or.inl h
        · exact Or.inr h.2.2
      | some sv =>
        rw [hsp] at h
        cases sv with
        | timeVal t =>
          simp at h
          rcases h with h | h
          · exact Or.inl h
          · exact Or.inr h.2.2
        | spanVal sid2 =>
          simp at h
          rcases h with h | h
          · exact Or.inl h
          · exact Or.inr h.2.2
        | otherVal s2 =>
          simp at h
          rcases h with h | h
          · exact Or.inl h
          · exact Or.inr h.2.2

/-- Witness for hooks_ignore_logging_options: the default options and
options differing exactly in logResult, logSqlParameters and the tracer
drive the query hook and the after hook identically on a concrete
handle. -/
theorem hooks_ignore_logging_options_witness :
    (OpentracingPlugin.mk defaultOption).beforeHook OpKind.query (some wDB) 7
        (TraceWorld.mk 0 [])
      = (OpentracingPlugin.mk altLoggingOptions).beforeHook OpKind.query (some wDB) 7
        (TraceWorld.mk 0 []) ∧
    (OpentracingPlugin.mk defaultOption).after (some wDB) 7 (TraceWorld.mk 0 [])
      = (OpentracingPlugin.mk altLoggingOptions).after (some wDB) 7 (TraceWorld.mk 0 []) := by
  have h := hooks_ignore_logging_options defaultOption altLoggingOptions
    rfl rfl rfl rfl rfl rfl rfl
  exact ⟨h.1 OpKind.query (some wDB) 7 (TraceWorld.mk 0 []),
    h.2.1 (some wDB) 7 (TraceWorld.mk 0 [])⟩

end GormOtel
